import Mathlib

/-!
Shallow embedding of the vkhr hybrid rendering core:
 * `src/vkpp/instance.cc` — capability negotiation, instance construction,
   the process-wide capability cache and move semantics;
 * `src/vkhr/ray_tracer/hair_style.cc` — curve geometry registration and
   the Kajiya-Kay hair shading model.
Machine state (driver handles, Embree calls) is made explicit; driver
responses are parameters of the modelled operations.
-/

namespace Vkpp

/-- A Vulkan instance layer.  In the source (`vkpp::Layer`) a layer carries a
name and version data; `operator==` compares by name, so the embedding keeps
only the name. -/
structure Layer where
  name : String
deriving DecidableEq, Repr

/-- A Vulkan instance extension (`vkpp::Extension`); equality is name-based,
as for `Layer`. -/
structure Extension where
  name : String
deriving DecidableEq, Repr

/-- `Instance::find(extensions, available)` (instance.cc lines 108-124):
for each requested extension, scan `available` with a `found` flag; requested
extensions that are not found are appended, in order, to the result. -/
def findExtensions : List Extension → List Extension → List Extension
  | [], _ => []
  | e :: rest, available =>
      (if available.any (fun a => a.name = e.name) then [] else [e])
        ++ findExtensions rest available

/-- `Instance::find(layers, available)` (instance.cc lines 126-142): same
scan as `findExtensions`, over layers. -/
def findLayers : List Layer → List Layer → List Layer
  | [], _ => []
  | l :: rest, available =>
      (if available.any (fun a => a.name = l.name) then [] else [l])
        ++ findLayers rest available

/-- `Instance::collapse(exts)` (instance.cc lines 201-206): append every
missing extension's name followed by a space. -/
def collapseExtensions (exts : List Extension) : String :=
  exts.foldl (fun acc e => acc ++ (e.name ++ " ")) ""

/-- `Instance::collapse(layers)` (instance.cc lines 208-213). -/
def collapseLayers (layers : List Layer) : String :=
  layers.foldl (fun acc l => acc ++ (l.name ++ " ")) ""

theorem findExtensions_eq_filter (R A : List Extension) :
    findExtensions R A = R.filter (fun e => ¬ A.any (fun a => a.name = e.name)) := by
  induction R with
  | nil => rfl
  | cons e rest ih =>
      simp only [findExtensions, List.filter_cons, ih]
      by_cases h : A.any (fun a => a.name = e.name) <;> simp [h]

theorem findLayers_eq_filter (R A : List Layer) :
    findLayers R A = R.filter (fun l => ¬ A.any (fun a => a.name = l.name)) := by
  induction R with
  | nil => rfl
  | cons l rest ih =>
      simp only [findLayers, List.filter_cons, ih]
      by_cases h : A.any (fun a => a.name = l.name) <;> simp [h]

theorem mem_findExtensions (R A : List Extension) (x : Extension) :
    x ∈ findExtensions R A ↔ x ∈ R ∧ ¬ ∃ y ∈ A, y.name = x.name := by
  simp [findExtensions_eq_filter, List.mem_filter, List.any_eq_true]

theorem mem_findLayers (R A : List Layer) (x : Layer) :
    x ∈ findLayers R A ↔ x ∈ R ∧ ¬ ∃ y ∈ A, y.name = x.name := by
  simp [findLayers_eq_filter, List.mem_filter, List.any_eq_true]

theorem findExtensions_perm {R R' A A' : List Extension}
    (hR : R.Perm R') (hA : A.Perm A') :
    (findExtensions R A).Perm (findExtensions R' A') := by
  rw [findExtensions_eq_filter, findExtensions_eq_filter]
  have hpred : ∀ e : Extension,
      (A.any (fun a => a.name = e.name) = true)
        ↔ (A'.any (fun a => a.name = e.name) = true) := by
    intro e
    simp only [List.any_eq_true]
    exact ⟨fun ⟨y, hy, h⟩ => ⟨y, hA.mem_iff.mp hy, h⟩,
           fun ⟨y, hy, h⟩ => ⟨y, hA.mem_iff.mpr hy, h⟩⟩
  have hfun : (fun e : Extension => decide ¬ A.any (fun a => a.name = e.name) = true)
       = (fun e : Extension => decide ¬ A'.any (fun a => a.name = e.name) = true) := by
    funext e
    exact decide_eq_decide.mpr (not_congr (hpred e))
  rw [hfun]
  exact hR.filter _

theorem findExtensions_eq_nil_iff (R A : List Extension) :
    findExtensions R A = [] ↔ ∀ x ∈ R, ∃ y ∈ A, y.name = x.name := by
  rw [findExtensions_eq_filter]
  simp [List.filter_eq_nil_iff, List.any_eq_true]

theorem findLayers_eq_nil_iff (R A : List Layer) :
    findLayers R A = [] ↔ ∀ x ∈ R, ∃ y ∈ A, y.name = x.name := by
  rw [findLayers_eq_filter]
  simp [List.filter_eq_nil_iff, List.any_eq_true]

/-- C3: For every requested set R and available set A, find_missing(R, A)
returns exactly the elements of R that have no name-equal element in A,
independent of the enumeration order of R and A; the result is empty if and
only if every requested capability is available. -/
theorem find_missing_exact_and_order_independent
    (R A R' A' : List Extension) (hR : R.Perm R') (hA : A.Perm A') :
    (∀ x, x ∈ findExtensions R A ↔ x ∈ R ∧ ¬ ∃ y ∈ A, y.name = x.name)
    ∧ (findExtensions R A).Perm (findExtensions R' A')
    ∧ (findExtensions R A = [] ↔ ∀ x ∈ R, ∃ y ∈ A, y.name = x.name) :=
  ⟨mem_findExtensions R A, findExtensions_perm hR hA,
   findExtensions_eq_nil_iff R A⟩

/-- Witness for C3 at concrete inputs: R = [a, b] against A = [b, c], with
R' and A' reversed enumerations. -/
theorem find_missing_exact_and_order_independent_witness :
    ([Extension.mk "a", Extension.mk "b"]).Perm [Extension.mk "b", Extension.mk "a"]
    ∧ (findExtensions [Extension.mk "a", Extension.mk "b"]
        [Extension.mk "b", Extension.mk "c"]).Perm
      (findExtensions [Extension.mk "b", Extension.mk "a"]
        [Extension.mk "c", Extension.mk "b"]) :=
  ⟨by decide,
   (find_missing_exact_and_order_independent
      [Extension.mk "a", Extension.mk "b"] [Extension.mk "b", Extension.mk "c"]
      [Extension.mk "b", Extension.mk "a"] [Extension.mk "c", Extension.mk "b"]
      (by decide) (by decide)).2.1⟩

/-- C10: the missing-capability search returns the missing entries in the
same relative order as the requested list and preserves duplicates: a
requested entry occurring k times with no name-equal available entry occurs
k times in the result.  Stated for both overloads (extensions and layers);
order preservation is expressed as being a sublist of the requested list. -/
theorem find_missing_order_and_duplicates
    (Re Ae : List Extension) (Rl Al : List Layer) :
    (findExtensions Re Ae).Sublist Re
    ∧ (∀ x : Extension, (¬ ∃ y ∈ Ae, y.name = x.name) →
        (findExtensions Re Ae).count x = Re.count x)
    ∧ (findLayers Rl Al).Sublist Rl
    ∧ (∀ x : Layer, (¬ ∃ y ∈ Al, y.name = x.name) →
        (findLayers Rl Al).count x = Rl.count x) := by
  refine ⟨?_, ?_, ?_, ?_⟩
  · rw [findExtensions_eq_filter]; exact List.filter_sublist Re
  · intro x hx
    rw [findExtensions_eq_filter]
    refine List.count_filter ?_
    simpa using hx
  · rw [findLayers_eq_filter]; exact List.filter_sublist Rl
  · intro x hx
    rw [findLayers_eq_filter]
    refine List.count_filter ?_
    simpa using hx

/-- Witness for C10: the requested extension "a" occurs twice with no match
in the available list and occurs twice in the result, in requested order. -/
theorem find_missing_order_and_duplicates_witness :
    (¬ ∃ y ∈ [Extension.mk "b"], y.name = "a")
    ∧ (findExtensions [Extension.mk "a", Extension.mk "b", Extension.mk "a"]
        [Extension.mk "b"]).count (Extension.mk "a") = 2 := by
  refine ⟨by decide, ?_⟩
  have h := (find_missing_order_and_duplicates
    [Extension.mk "a", Extension.mk "b", Extension.mk "a"] [Extension.mk "b"]
    [] []).2.1 (Extension.mk "a") (by decide)
  rw [h]; decide

/-- Failures thrown by the `Instance` constructor (vkpp::Exception carries
the message strings shown; the driver path carries the VkResult code). -/
inductive VkError where
  | missingLayers (msg : String)
  | missingExtensions (msg : String)
  | createFailed (code : Int)
deriving DecidableEq, Repr

/-- Driver-side objects brought to life during construction, in order. -/
inductive Event where
  | createInstance
  | attachMessenger
deriving DecidableEq, Repr

/-- The state an `Instance` holds after construction (instance.hh members
observable through instance.cc): enabled capability lists, the raw
`VkInstance` handle (0 models `VK_NULL_HANDLE`) and whether an owned
`DebugMessenger` was attached. -/
structure InstanceState where
  enabled_layers : List Layer
  enabled_extensions : List Extension
  handle : Nat
  messenger : Bool
deriving DecidableEq, Repr

/-- `Instance::Instance` (instance.cc lines 6-68).  `driverResult` is the
outcome of `vkCreateInstance` (ok: the fresh handle; error: the VkResult
code).  The returned event list records which driver objects were created,
in order; it is empty whenever the constructor throws, since both capability
errors are thrown before `vkCreateInstance` and a driver error means no
instance came to life. -/
def instanceConstruct (required_layers : List Layer)
    (required_extensions : List Extension)
    (available_layers : List Layer) (available_extensions : List Extension)
    (driverResult : Except Int Nat) :
    List Event × Except VkError InstanceState :=
  let missing_layers := findLayers required_layers available_layers
  if missing_layers.length ≠ 0 then
    ([], .error (.missingLayers
      ("the layers(s): " ++ collapseLayers missing_layers ++ "are missing!")))
  else
    let missing_extensions :=
      findExtensions required_extensions available_extensions
    if missing_extensions.length ≠ 0 then
      ([], .error (.missingExtensions
        ("extension(s): " ++ collapseExtensions missing_extensions
          ++ "are missing!")))
    else
      match driverResult with
      | .error code => ([], .error (.createFailed code))
      | .ok h =>
        let base : InstanceState :=
          { enabled_layers := required_layers,
            enabled_extensions := required_extensions,
            handle := h, messenger := false }
        if (findExtensions [⟨"VK_EXT_debug_utils"⟩] required_extensions).length = 0 then
          if (findLayers [⟨"VK_LAYER_LUNARG_standard_validation"⟩] required_layers).length = 0 then
            ([.createInstance, .attachMessenger], .ok { base with messenger := true })
          else
            ([.createInstance], .ok base)
        else
          ([.createInstance], .ok base)

theorem findExtensions_singleton_nil_iff (n : String) (A : List Extension) :
    findExtensions [⟨n⟩] A = [] ↔ ∃ y ∈ A, y.name = n := by
  rw [findExtensions_eq_nil_iff]
  simp

theorem findLayers_singleton_nil_iff (n : String) (A : List Layer) :
    findLayers [⟨n⟩] A = [] ↔ ∃ y ∈ A, y.name = n := by
  rw [findLayers_eq_nil_iff]
  simp

/-- C2 counterexample: constructing with empty requested layer and extension
sets — so the requested sets contain neither the debug-utilities extension
nor the standard-validation layer — attaches NO Diagnostics Channel
(`messenger = false`, no `attachMessenger` event), refuting the claim that
exactly one is attached when neither capability is requested.  In the source
the messenger is attached only when `find({cap}, requested)` comes back
EMPTY, i.e. when the capability IS already requested. -/
theorem diagnostics_attach_empty_request_counterexample :
    instanceConstruct [] [] [] [] (.ok 1) =
      ([Event.createInstance],
       .ok { enabled_layers := [], enabled_extensions := [],
             handle := 1, messenger := false }) := by
  rfl

/-- C2 amended: a Diagnostics Channel is attached if and only if the
requested extension set CONTAINS a debug-utilities extension AND the
requested layer set CONTAINS a standard-validation layer; when it is
attached it is attached exactly once (one `attachMessenger` event), and
otherwise none is attached. -/
theorem diagnostics_attach_iff_capabilities_requested
    (Rl : List Layer) (Re : List Extension)
    (Al : List Layer) (Ae : List Extension) (h : Nat)
    (ev : List Event) (st : InstanceState)
    (hok : instanceConstruct Rl Re Al Ae (.ok h) = (ev, .ok st)) :
    (st.messenger = true ↔
      (∃ e ∈ Re, e.name = "VK_EXT_debug_utils")
        ∧ (∃ l ∈ Rl, l.name = "VK_LAYER_LUNARG_standard_validation"))
    ∧ (st.messenger = true → ev = [.createInstance, .attachMessenger])
    ∧ (st.messenger = false → ev = [.createInstance]) := by
  by_cases hml : (findLayers Rl Al).length = 0
  case neg => simp [instanceConstruct, hml] at hok
  by_cases hme : (findExtensions Re Ae).length = 0
  case neg => simp [instanceConstruct, hml, hme] at hok
  by_cases hdbg : (findExtensions [⟨"VK_EXT_debug_utils"⟩] Re).length = 0
  · by_cases hval :
        (findLayers [⟨"VK_LAYER_LUNARG_standard_validation"⟩] Rl).length = 0
    · simp only [instanceConstruct, hml, hme, hdbg, hval, if_pos, if_neg,
        ne_eq, not_true_eq_false, if_false, ite_true, ite_false,
        Prod.mk.injEq, Except.ok.injEq, not_false_eq_true] at hok
      obtain ⟨rfl, rfl⟩ := hok
      refine ⟨?_, fun _ => rfl, fun habs => by cases habs⟩
      simp only [true_iff]
      exact ⟨(findExtensions_singleton_nil_iff "VK_EXT_debug_utils" Re).mp
          (List.length_eq_zero.mp hdbg),
        (findLayers_singleton_nil_iff
            "VK_LAYER_LUNARG_standard_validation" Rl).mp
          (List.length_eq_zero.mp hval)⟩
    · simp only [instanceConstruct, hml, hme, hdbg, hval, if_pos, if_neg,
        ne_eq, not_true_eq_false, if_false, ite_true, ite_false,
        Prod.mk.injEq, Except.ok.injEq, not_false_eq_true] at hok
      obtain ⟨rfl, rfl⟩ := hok
      refine ⟨?_, ?_, fun _ => rfl⟩
      · simp only [Bool.false_eq_true, false_iff, not_and]
        intro _ hl
        exact hval (by
          rw [(findLayers_singleton_nil_iff
            "VK_LAYER_LUNARG_standard_validation" Rl).mpr hl]
          rfl)
      · intro habs; simp at habs
  · simp only [instanceConstruct, hml, hme, hdbg, if_pos, if_neg,
      ne_eq, not_true_eq_false, if_false, ite_true, ite_false,
      Prod.mk.injEq, Except.ok.injEq, not_false_eq_true] at hok
    obtain ⟨rfl, rfl⟩ := hok
    refine ⟨?_, ?_, fun _ => rfl⟩
    · simp only [Bool.false_eq_true, false_iff, not_and]
      intro he
      exact absurd ((findExtensions_singleton_nil_iff
          "VK_EXT_debug_utils" Re).mpr he)
        (by intro hnil; exact hdbg (by rw [hnil]; rfl))
    · intro habs; simp at habs

/-- Witness for C2 (amended): requesting both the debug extension and the
validation layer (both available) attaches the messenger exactly once. -/
theorem diagnostics_attach_iff_capabilities_requested_witness :
    (instanceConstruct [⟨"VK_LAYER_LUNARG_standard_validation"⟩]
        [⟨"VK_EXT_debug_utils"⟩]
        [⟨"VK_LAYER_LUNARG_standard_validation"⟩]
        [⟨"VK_EXT_debug_utils"⟩] (.ok 7)).2 =
      .ok { enabled_layers := [⟨"VK_LAYER_LUNARG_standard_validation"⟩],
            enabled_extensions := [⟨"VK_EXT_debug_utils"⟩],
            handle := 7, messenger := true }
    ∧ (instanceConstruct [⟨"VK_LAYER_LUNARG_standard_validation"⟩]
        [⟨"VK_EXT_debug_utils"⟩]
        [⟨"VK_LAYER_LUNARG_standard_validation"⟩]
        [⟨"VK_EXT_debug_utils"⟩] (.ok 7)).1 =
      [Event.createInstance, Event.attachMessenger] := by
  refine ⟨by rfl, ?_⟩
  have h := diagnostics_attach_iff_capabilities_requested
    [⟨"VK_LAYER_LUNARG_standard_validation"⟩] [⟨"VK_EXT_debug_utils"⟩]
    [⟨"VK_LAYER_LUNARG_standard_validation"⟩] [⟨"VK_EXT_debug_utils"⟩]
    7 [Event.createInstance, Event.attachMessenger]
    { enabled_layers := [⟨"VK_LAYER_LUNARG_standard_validation"⟩],
      enabled_extensions := [⟨"VK_EXT_debug_utils"⟩],
      handle := 7, messenger := true }
    (by rfl)
  exact h.2.1 (by rfl)

theorem foldl_append_keeps_acc (L : List String) (acc : String) :
    acc.data <+: (L.foldl (fun a n => a ++ (n ++ " ")) acc).data := by
  induction L generalizing acc with
  | nil => exact List.prefix_rfl
  | cons n rest ih =>
      refine List.IsPrefix.trans ?_ (ih (acc ++ (n ++ " ")))
      simp only [String.data_append]
      exact (acc.data).prefix_append _

theorem mem_foldl_append_occurs (L : List String) (acc : String)
    (n : String) (hn : n ∈ L) :
    n.data <:+: (L.foldl (fun a m => a ++ (m ++ " ")) acc).data := by
  induction L generalizing acc with
  | nil => cases hn
  | cons m rest ih =>
      rcases List.mem_cons.mp hn with rfl | hrest
      · refine List.IsInfix.trans ?_
          (foldl_append_keeps_acc rest (acc ++ (n ++ " "))).isInfix
        simp only [String.data_append]
        exact ⟨acc.data, " ".data, by simp⟩
      · exact ih (acc ++ (m ++ " ")) hrest

theorem mem_collapseLayers_occurs (L : List Layer) (l : Layer) (hl : l ∈ L) :
    l.name.data <:+: (collapseLayers L).data := by
  rw [collapseLayers, ← List.foldl_map (f := Layer.name)
    (g := fun a m => a ++ (m ++ " "))]
  exact mem_foldl_append_occurs (L.map Layer.name) "" l.name
    (List.mem_map_of_mem Layer.name hl)

theorem mem_collapseExtensions_occurs (L : List Extension) (e : Extension)
    (he : e ∈ L) :
    e.name.data <:+: (collapseExtensions L).data := by
  rw [collapseExtensions, ← List.foldl_map (f := Extension.name)
    (g := fun a m => a ++ (m ++ " "))]
  exact mem_foldl_append_occurs (L.map Extension.name) "" e.name
    (List.mem_map_of_mem Extension.name he)

/-- C4: whenever construction fails on unavailable capabilities, the message
enumerates EVERY missing name (each missing name occurs in the message
string), not just the first; and missing layers are checked and reported
before missing extensions are even considered (a layer failure wins whatever
the extension sets are). -/
theorem missing_capability_error_enumerates_every_name
    (Rl : List Layer) (Re : List Extension)
    (Al : List Layer) (Ae : List Extension) (dr : Except Int Nat) :
    (findLayers Rl Al ≠ [] →
      instanceConstruct Rl Re Al Ae dr =
        ([], .error (.missingLayers ("the layers(s): "
          ++ collapseLayers (findLayers Rl Al) ++ "are missing!")))
      ∧ ∀ l ∈ findLayers Rl Al, l.name.data <:+:
          ("the layers(s): " ++ collapseLayers (findLayers Rl Al)
            ++ "are missing!").data)
    ∧ (findLayers Rl Al = [] → findExtensions Re Ae ≠ [] →
      instanceConstruct Rl Re Al Ae dr =
        ([], .error (.missingExtensions ("extension(s): "
          ++ collapseExtensions (findExtensions Re Ae) ++ "are missing!")))
      ∧ ∀ e ∈ findExtensions Re Ae, e.name.data <:+:
          ("extension(s): " ++ collapseExtensions (findExtensions Re Ae)
            ++ "are missing!").data) := by
  constructor
  · intro hml
    have hlen : (findLayers Rl Al).length ≠ 0 := by
      simpa [List.length_eq_zero] using hml
    constructor
    · simp [instanceConstruct, hlen]
    · intro l hl
      simp only [String.data_append]
      exact List.IsInfix.trans (mem_collapseLayers_occurs _ l hl)
        ⟨("the layers(s): ").data, ("are missing!").data, rfl⟩
  · intro hml hme
    have hlen : (findLayers Rl Al).length = 0 := by simp [hml]
    have helen : (findExtensions Re Ae).length ≠ 0 := by
      simpa [List.length_eq_zero] using hme
    constructor
    · simp [instanceConstruct, hlen, helen]
    · intro e he
      simp only [String.data_append]
      exact List.IsInfix.trans (mem_collapseExtensions_occurs _ e he)
        ⟨("extension(s): ").data, ("are missing!").data, rfl⟩

/-- Witness for C4: requesting layers "a" and "b" when neither is available
fails with the layer error enumerating both names, even though extension
"x" is missing as well (layers are reported first). -/
theorem missing_capability_error_enumerates_every_name_witness :
    instanceConstruct [⟨"a"⟩, ⟨"b"⟩] [⟨"x"⟩] [] [] (.ok 1) =
      ([], .error (.missingLayers ("the layers(s): "
        ++ collapseLayers (findLayers [⟨"a"⟩, ⟨"b"⟩] []) ++ "are missing!")))
    ∧ ("b").data <:+: ("the layers(s): "
        ++ collapseLayers (findLayers [⟨"a"⟩, ⟨"b"⟩] [])
        ++ "are missing!").data := by
  have h := (missing_capability_error_enumerates_every_name
    [⟨"a"⟩, ⟨"b"⟩] [⟨"x"⟩] [] [] (.ok 1)).1 (by decide)
  exact ⟨h.1, h.2 ⟨"b"⟩ (by decide)⟩

/-- C7: a construction failure (capability negotiation or driver rejection)
leaves no driver object live: the event trace of a failed construction is
empty — `vkCreateInstance` was never reached on the missing-capability
paths, and no Diagnostics Channel was attached. -/
theorem construction_failure_leaves_no_driver_objects
    (Rl : List Layer) (Re : List Extension)
    (Al : List Layer) (Ae : List Extension) (dr : Except Int Nat)
    (ev : List Event) (e : VkError)
    (hfail : instanceConstruct Rl Re Al Ae dr = (ev, .error e)) :
    ev = [] := by
  by_cases hml : (findLayers Rl Al).length = 0
  · by_cases hme : (findExtensions Re Ae).length = 0
    · cases dr with
      | error code =>
          simp only [instanceConstruct, hml, hme, ne_eq, not_true_eq_false,
            if_false, ite_false, Prod.mk.injEq] at hfail
          first
            | exact hfail.1
            | exact hfail.1.symm
      | ok h =>
          by_cases hdbg :
              (findExtensions [⟨"VK_EXT_debug_utils"⟩] Re).length = 0
          · by_cases hval :
                (findLayers [⟨"VK_LAYER_LUNARG_standard_validation"⟩] Rl).length = 0
            · simp [instanceConstruct, hml, hme, hdbg, hval] at hfail
            · simp [instanceConstruct, hml, hme, hdbg, hval] at hfail
          · simp [instanceConstruct, hml, hme, hdbg] at hfail
    · simp only [instanceConstruct, hml, hme, ne_eq, not_true_eq_false,
        not_false_eq_true, if_false, if_true, ite_false, ite_true,
        Prod.mk.injEq] at hfail
      first
        | exact hfail.1
        | exact hfail.1.symm
  · simp only [instanceConstruct, hml, ne_eq, not_false_eq_true,
      if_true, ite_true, Prod.mk.injEq] at hfail
    first
      | exact hfail.1
      | exact hfail.1.symm

/-- Witness for C7: the concrete failing construction (missing layer "a")
creates no driver object. -/
theorem construction_failure_leaves_no_driver_objects_witness :
    (instanceConstruct [⟨"a"⟩] [] [] [] (.ok 1)).1 = [] :=
  construction_failure_leaves_no_driver_objects [⟨"a"⟩] [] [] [] (.ok 1)
    (instanceConstruct [⟨"a"⟩] [] [] [] (.ok 1)).1
    (.missingLayers ("the layers(s): " ++ collapseLayers (findLayers [⟨"a"⟩] [])
      ++ "are missing!"))
    (by rfl)

/-- The process-wide static cache `Instance::available_layers`
(instance.cc line 216) together with a counter of how many times the driver
was actually queried (`vkEnumerateInstanceLayerProperties`). -/
structure LayerCache where
  available_layers : List Layer
  queries : Nat
deriving DecidableEq, Repr

/-- The process-wide static cache `Instance::available_extensions`
(instance.cc line 217) with its driver-query counter. -/
structure ExtensionCache where
  available_extensions : List Extension
  queries : Nat
deriving DecidableEq, Repr

/-- `Instance::get_available_layers` (instance.cc lines 166-181): if the
cached vector is non-empty, return it; otherwise query the driver (whose
deterministic answer is `driver`), store it and return it. -/
def get_available_layers (driver : List Layer) (s : LayerCache) :
    List Layer × LayerCache :=
  if s.available_layers.isEmpty = false then (s.available_layers, s)
  else (driver, { available_layers := driver, queries := s.queries + 1 })

/-- `Instance::get_available_extensions` (instance.cc lines 183-199). -/
def get_available_extensions (driver : List Extension) (s : ExtensionCache) :
    List Extension × ExtensionCache :=
  if s.available_extensions.isEmpty = false then (s.available_extensions, s)
  else (driver, { available_extensions := driver, queries := s.queries + 1 })

/-- `n` successive calls to `get_available_layers` within one process. -/
def layerCalls (driver : List Layer) : Nat → LayerCache → LayerCache
  | 0, s => s
  | n + 1, s => layerCalls driver n (get_available_layers driver s).2

/-- `n` successive calls to `get_available_extensions`. -/
def extensionCalls (driver : List Extension) : Nat → ExtensionCache → ExtensionCache
  | 0, s => s
  | n + 1, s => extensionCalls driver n (get_available_extensions driver s).2

/-- C5 counterexample: when the driver reports ZERO layers, the cache is
never considered populated (the code tests `!available_layers.empty()`), so
the driver is re-queried on every call: after two calls from the fresh
process state the query counter is 2, refuting "queried from the driver at
most once per process". -/
theorem capability_cache_requeried_counterexample :
    (layerCalls [] 2 ⟨[], 0⟩).queries = 2
    ∧ ¬ (layerCalls [] 2 ⟨[], 0⟩).queries ≤ 1 := by
  decide

theorem layerCalls_of_populated (driver : List Layer) (n : Nat)
    (s : LayerCache) (hs : s.available_layers ≠ []) :
    layerCalls driver n s = s := by
  induction n with
  | zero => rfl
  | succ n ih =>
      have hempty : s.available_layers.isEmpty = false := by
        simpa [List.isEmpty_iff] using hs
      simp [layerCalls, get_available_layers, hempty, ih]

theorem extensionCalls_of_populated (driver : List Extension) (n : Nat)
    (s : ExtensionCache) (hs : s.available_extensions ≠ []) :
    extensionCalls driver n s = s := by
  induction n with
  | zero => rfl
  | succ n ih =>
      have hempty : s.available_extensions.isEmpty = false := by
        simpa [List.isEmpty_iff] using hs
      simp [extensionCalls, get_available_extensions, hempty, ih]

/-- C5 amended: two successive calls return identical collections; once the
cache is populated (non-empty) it is never re-queried or mutated; and the
driver is queried at most once per process PROVIDED it reports a non-empty
collection — an empty driver answer never populates the cache (the source
tests `!empty()`) and is re-queried on every call. -/
theorem capability_cache_memoization
    (dl : List Layer) (de : List Extension) :
    (∀ s : LayerCache,
      (get_available_layers dl (get_available_layers dl s).2).1
        = (get_available_layers dl s).1)
    ∧ (∀ s : ExtensionCache,
      (get_available_extensions de (get_available_extensions de s).2).1
        = (get_available_extensions de s).1)
    ∧ (∀ s : LayerCache, s.available_layers ≠ [] →
        get_available_layers dl s = (s.available_layers, s))
    ∧ (∀ s : ExtensionCache, s.available_extensions ≠ [] →
        get_available_extensions de s = (s.available_extensions, s))
    ∧ (dl ≠ [] → ∀ n, (layerCalls dl n ⟨[], 0⟩).queries ≤ 1)
    ∧ (de ≠ [] → ∀ n, (extensionCalls de n ⟨[], 0⟩).queries ≤ 1) := by
  refine ⟨?_, ?_, ?_, ?_, ?_, ?_⟩
  · intro s
    by_cases h : s.available_layers.isEmpty = false
    · simp [get_available_layers, h]
    · by_cases hd : dl.isEmpty = false
      · simp [get_available_layers, h, hd]
      · simp only [Bool.not_eq_false] at h hd
        simp [get_available_layers, h, hd]
  · intro s
    by_cases h : s.available_extensions.isEmpty = false
    · simp [get_available_extensions, h]
    · by_cases hd : de.isEmpty = false
      · simp [get_available_extensions, h, hd]
      · simp only [Bool.not_eq_false] at h hd
        simp [get_available_extensions, h, hd]
  · intro s hs
    have hempty : s.available_layers.isEmpty = false := by
      simpa [List.isEmpty_iff] using hs
    simp [get_available_layers, hempty]
  · intro s hs
    have hempty : s.available_extensions.isEmpty = false := by
      simpa [List.isEmpty_iff] using hs
    simp [get_available_extensions, hempty]
  · intro hdl n
    match n with
    | 0 => exact Nat.zero_le 1
    | n + 1 =>
        have h1 : (get_available_layers dl ⟨[], 0⟩).2 = ⟨dl, 1⟩ := by
          simp [get_available_layers]
        rw [layerCalls, h1, layerCalls_of_populated dl n ⟨dl, 1⟩ hdl]
  · intro hde n
    match n with
    | 0 => exact Nat.zero_le 1
    | n + 1 =>
        have h1 : (get_available_extensions de ⟨[], 0⟩).2 = ⟨de, 1⟩ := by
          simp [get_available_extensions]
        rw [extensionCalls, h1, extensionCalls_of_populated de n ⟨de, 1⟩ hde]

/-- Witness for C5 (amended): a driver reporting one layer and one
extension is queried exactly once over three calls each. -/
theorem capability_cache_memoization_witness :
    ([Layer.mk "l"] ≠ ([] : List Layer))
    ∧ (layerCalls [Layer.mk "l"] 3 ⟨[], 0⟩).queries ≤ 1
    ∧ (extensionCalls [Extension.mk "e"] 3 ⟨[], 0⟩).queries ≤ 1 :=
  ⟨by decide,
   (capability_cache_memoization [Layer.mk "l"] [Extension.mk "e"]).2.2.2.2.1
     (by decide) 3,
   (capability_cache_memoization [Layer.mk "l"] [Extension.mk "e"]).2.2.2.2.2
     (by decide) 3⟩

/-- The ownership-relevant members of a `vkpp::Instance`: the raw
`VkInstance` handle and the owned `DebugMessenger`'s handle, with 0
modelling `VK_NULL_HANDLE` / no messenger.
Modelled from the spec: the default member initializers live in
`vkpp/instance.hh`, which is not under src/; per the spec a default
instance holds a null handle ("supports safe destruction of a
moved-from/default instance"). -/
structure InstanceHandles where
  handle : Nat
  messenger : Nat
deriving DecidableEq, Repr

/-- A default-constructed `Instance`: null handle, no messenger. -/
def defaultInstanceHandles : InstanceHandles := ⟨0, 0⟩

/-- `swap(Instance&, Instance&)` (instance.cc lines 86-94): every member is
exchanged; returns (new lhs, new rhs). -/
def swapInstances (lhs rhs : InstanceHandles) :
    InstanceHandles × InstanceHandles := (rhs, lhs)

/-- Move constructor (instance.cc lines 77-79): `*this` starts
default-initialized, then swaps with the source; returns
(destination, source after the move). -/
def moveConstructInstance (src : InstanceHandles) :
    InstanceHandles × InstanceHandles :=
  swapInstances defaultInstanceHandles src

/-- Move assignment (instance.cc lines 81-84): plain swap; returns
(destination after, source after). -/
def moveAssignInstance (dst src : InstanceHandles) :
    InstanceHandles × InstanceHandles :=
  swapInstances dst src

/-- `Instance::~Instance` (instance.cc lines 70-75): destroy the messenger
first, then `vkDestroyInstance` if the handle is non-null.  The result is
the list of driver objects released, in order.  Modelled from the spec:
`DebugMessenger::destroy` (not under src/) releases only a live channel. -/
def destroyInstance (s : InstanceHandles) : List Nat :=
  (if s.messenger ≠ 0 then [s.messenger] else [])
    ++ (if s.handle ≠ 0 then [s.handle] else [])

/-- C6 counterexample: move ASSIGNMENT is a swap, so it does not clear the
source's handle — assigning from source (handle 7) onto a destination that
owns handle 5 leaves the source holding handle 5, and destroying the
moved-from source releases driver object 5: not a no-op. -/
theorem move_assign_source_not_cleared_counterexample :
    (moveAssignInstance ⟨5, 0⟩ ⟨7, 0⟩).2.handle = 5
    ∧ destroyInstance (moveAssignInstance ⟨5, 0⟩ ⟨7, 0⟩).2 = [5] := by
  decide

/-- C6 amended: move CONSTRUCTION transfers all owned state and leaves the
source default (null handle), so destroying the moved-from source releases
nothing; move ASSIGNMENT swaps the two states, so the source receives the
destination's previous handle and releases exactly that on destruction —
across both objects every handle is still released exactly once (the
combined release lists before and after the move are permutations). -/
theorem move_semantics_single_release
    (s d : InstanceHandles) :
    moveConstructInstance s = (s, defaultInstanceHandles)
    ∧ destroyInstance (moveConstructInstance s).2 = []
    ∧ (destroyInstance (moveAssignInstance d s).1
        ++ destroyInstance (moveAssignInstance d s).2).Perm
      (destroyInstance d ++ destroyInstance s) :=
  ⟨rfl, rfl, List.perm_append_comm⟩

end Vkpp

namespace Vkhr

/-- What `HairStyle::load` (hair_style.cc lines 32-35) registers for the
index buffer with `rtcSetSharedGeometryBuffer(..., RTC_BUFFER_TYPE_INDEX,
...)`: a stride of two raw index entries per curve segment
(`sizeof(indices[0]) * 2`) and a segment count of `indices.size() / 2`
(C++ integer division). -/
structure IndexBufferRegistration where
  strideEntries : Nat
  segmentCount : Nat
deriving DecidableEq, Repr

/-- The index-buffer registration `HairStyle::load` performs for a strand
geometry with the given raw index sequence.  The source performs NO parity
check on the index count. -/
def loadIndexRegistration (indices : List Nat) : IndexBufferRegistration :=
  { strideEntries := 2, segmentCount := indices.length / 2 }

inductive GeometryError where
  | invalidGeometry
deriving DecidableEq, Repr

/-- Modelled from the spec: the claimed builder behavior — "an odd-length
index sequence is rejected with `InvalidGeometry`" — stated as a checked
variant, to be compared with the source's actual `load`, which has no such
check anywhere in hair_style.cc. -/
def loadSpecChecked (indices : List Nat) :
    Except GeometryError IndexBufferRegistration :=
  if indices.length % 2 = 1 then .error .invalidGeometry
  else .ok (loadIndexRegistration indices)

/-- C1 counterexample: on the odd-length index sequence [0, 1, 2] the source
build completes normally, silently registering ⌊3/2⌋ = 1 curve segment,
whereas the claim demands a rejection with `InvalidGeometry` (as the
spec-modelled checked variant would produce). -/
theorem odd_index_count_not_rejected_counterexample :
    loadIndexRegistration [0, 1, 2] = { strideEntries := 2, segmentCount := 1 }
    ∧ loadSpecChecked [0, 1, 2] = .error .invalidGeometry :=
  ⟨rfl, rfl⟩

/-- C1 amended: for every index sequence the builder registers segments at
stride two raw index entries and count = raw index count / 2 (integer
division): an even length 2N registers exactly N segments, and an
odd length 2N+1 silently registers N segments — no `InvalidGeometry`
failure exists in the code. -/
theorem curve_segment_registration (indices : List Nat) (N : Nat) :
    (loadIndexRegistration indices).strideEntries = 2
    ∧ (loadIndexRegistration indices).segmentCount = indices.length / 2
    ∧ (indices.length = 2 * N →
        (loadIndexRegistration indices).segmentCount = N)
    ∧ (indices.length = 2 * N + 1 →
        (loadIndexRegistration indices).segmentCount = N) := by
  refine ⟨rfl, rfl, ?_, ?_⟩
  all_goals intro h
  all_goals simp [loadIndexRegistration, h]
  all_goals omega

/-- Witness for C1 (amended) at the four-entry index sequence
[0, 1, 1, 2] (two segments). -/
theorem curve_segment_registration_witness :
    ([0, 1, 1, 2] : List Nat).length = 2 * 2
    ∧ (loadIndexRegistration [0, 1, 1, 2]).segmentCount = 2 :=
  ⟨by decide, (curve_segment_registration [0, 1, 1, 2] 2).2.2.1 (by decide)⟩

/-- 3-component vector (glm::vec3) over exact reals. -/
structure Vec3 where
  x : ℝ
  y : ℝ
  z : ℝ

theorem Vec3.ext_iff' (a b : Vec3) : a = b ↔ a.x = b.x ∧ a.y = b.y ∧ a.z = b.z := by
  constructor
  · intro h; cases h; exact ⟨rfl, rfl, rfl⟩
  · intro ⟨hx, hy, hz⟩; cases a; cases b; cases hx; cases hy; cases hz; rfl

/-- glm::dot. -/
def dot (a b : Vec3) : ℝ := a.x * b.x + a.y * b.y + a.z * b.z

/-- glm vector-times-scalar (componentwise). -/
def smul (t : ℝ) (v : Vec3) : Vec3 := ⟨t * v.x, t * v.y, t * v.z⟩

/-- glm vector addition (componentwise). -/
def vadd (a b : Vec3) : Vec3 := ⟨a.x + b.x, a.y + b.y, a.z + b.z⟩

/-- glm::clamp(x, minVal, maxVal) = min(max(x, minVal), maxVal). -/
noncomputable def clamp (x lo hi : ℝ) : ℝ := min (max x lo) hi

/-- `HairStyle::kajiya_kay` (hair_style.cc lines 78-100), translated
literally: the dot products are NOT clamped before the square roots;
`std::sqrt`/`std::pow` become `Real.sqrt`/`Real.rpow` (exact arithmetic,
so `Real.sqrt` of a negative argument is the junk value 0 rather than
IEEE NaN — the NaN-visible variant is `kajiya_kay_core_checked` below). -/
noncomputable def kajiya_kay (diffuse specular : Vec3) (p : ℝ)
    (tangent light eye : Vec3) : Vec3 :=
  let cosTL := dot light tangent
  let cosTE := dot eye tangent
  let cosTL_squared := cosTL * cosTL
  let cosTE_squared := cosTE * cosTE
  let one_minus_cosTL_squared := 1 - cosTL_squared
  let one_minus_cosTE_squared := 1 - cosTE_squared
  let sinTL := Real.sqrt one_minus_cosTL_squared
  let sinTE := Real.sqrt one_minus_cosTE_squared
  vadd (smul sinTL diffuse)
    (smul (clamp (Real.rpow (cosTL * cosTE + sinTL * sinTE) p) 0 1) specular)

/-- C9: when light, eye and tangent are all parallel (cosTL = cosTE = 1)
the diffuse term vanishes (sinTL = 0) and the specular factor is exactly 1
(clamp(1^50, 0, 1)), so the shading returns the light intensity — the
`specular` color — unchanged.  `shade` (hair_style.cc lines 44-59) passes
the light intensity as `specular` and shininess 50. -/
theorem shading_parallel_returns_light_intensity
    (diffuse specular tangent light eye : Vec3)
    (hL : dot light tangent = 1) (hE : dot eye tangent = 1) :
    kajiya_kay diffuse specular 50 tangent light eye = specular := by
  unfold kajiya_kay
  rw [hL, hE]
  norm_num [Real.sqrt_zero, Real.one_rpow, clamp, smul, vadd]

/-- Witness for C9: tangent = light = eye = (0,0,-1) (all parallel, camera
eye direction), diffuse the source's brown hair tone, intensity (2,3,4):
the shading returns exactly (2,3,4). -/
theorem shading_parallel_returns_light_intensity_witness :
    dot ⟨0, 0, -1⟩ ⟨0, 0, -1⟩ = 1
    ∧ kajiya_kay ⟨0.32, 0.228, 0.128⟩ ⟨2, 3, 4⟩ 50
        ⟨0, 0, -1⟩ ⟨0, 0, -1⟩ ⟨0, 0, -1⟩ = ⟨2, 3, 4⟩ :=
  ⟨by norm_num [dot],
   shading_parallel_returns_light_intensity ⟨0.32, 0.228, 0.128⟩ ⟨2, 3, 4⟩
     ⟨0, 0, -1⟩ ⟨0, 0, -1⟩ ⟨0, 0, -1⟩
     (by norm_num [dot]) (by norm_num [dot])⟩

/-- IEEE float sqrt yields NaN on a negative argument; `none` models a NaN
that then propagates into every later result. -/
noncomputable def sqrtChecked (x : ℝ) : Option ℝ :=
  if x < 0 then none else some (Real.sqrt x)

/-- Lines 84-99 of `kajiya_kay` parameterized by the two dot products as
already computed — in floating point, `dot(light, tangent)` can overshoot 1
by an ulp even for unit vectors — with NaN made visible through `Option`:
`none` means the returned color has NaN components. -/
noncomputable def kajiya_kay_core_checked (diffuse specular : Vec3) (p : ℝ)
    (cosTL cosTE : ℝ) : Option Vec3 :=
  match sqrtChecked (1 - cosTL * cosTL), sqrtChecked (1 - cosTE * cosTE) with
  | some sinTL, some sinTE =>
      some (vadd (smul sinTL diffuse)
        (smul (clamp (Real.rpow (cosTL * cosTE + sinTL * sinTE) p) 0 1) specular))
  | _, _ => none

/-- Modelled from the spec: the same computation with the cosines clamped
to [-1, 1] BEFORE the square roots, as the claim requires ("clamp inputs to
[-1,1] before the square root to avoid NaN — a required hardening beyond
the literal source"). -/
noncomputable def kajiya_kay_core_clamped (diffuse specular : Vec3) (p : ℝ)
    (cosTL cosTE : ℝ) : Option Vec3 :=
  kajiya_kay_core_checked diffuse specular p
    (clamp cosTL (-1) 1) (clamp cosTE (-1) 1)

/-- C8: the source performs no clamping before the square roots, so at a
floating-point overshoot cosTL = 1 + 2^-23 (nominally unit tangent and
light) it passes the negative value 1 - cosTL² to sqrt and the returned
color is NaN (`none`), while the clamped computation the claim requires
returns the well-defined color (1,1,1).  The specular factor itself IS
clamped to [0,1] in both. -/
theorem unclamped_sqrt_nan_at_overshoot :
    kajiya_kay_core_checked ⟨0.32, 0.228, 0.128⟩ ⟨1, 1, 1⟩ 50
      (1 + 1/8388608) 1 = none
    ∧ kajiya_kay_core_clamped ⟨0.32, 0.228, 0.128⟩ ⟨1, 1, 1⟩ 50
      (1 + 1/8388608) 1 = some ⟨1, 1, 1⟩ := by
  constructor
  · have hneg : (1 : ℝ) - (1 + 1/8388608) * (1 + 1/8388608) < 0 := by norm_num
    have h2 : (1 : ℝ) - 1 * 1 = 0 := by norm_num
    unfold kajiya_kay_core_checked sqrtChecked
    rw [if_pos hneg, h2, if_neg (by norm_num : ¬ (0 : ℝ) < 0)]
  · have hclampL : clamp (1 + 1/8388608 : ℝ) (-1) 1 = 1 := by
      unfold clamp
      rw [max_eq_left (by norm_num), min_eq_right (by norm_num)]
    have hclampE : clamp (1 : ℝ) (-1) 1 = 1 := by
      unfold clamp
      rw [max_eq_left (by norm_num), min_eq_right le_rfl]
    unfold kajiya_kay_core_clamped
    rw [hclampL, hclampE]
    have hzero : (1 : ℝ) - 1 * 1 = 0 := by norm_num
    unfold kajiya_kay_core_checked sqrtChecked
    rw [hzero]
    norm_num [Real.sqrt_zero, Real.one_rpow, clamp, smul, vadd]

end Vkhr
